import Mathlib

/-!
Verification of the boost PFC digital control core (`pfc.c`).

The definitions below are a shallow embedding of `pfc.c`.  Machine
integers are modelled as `Int` (resp. `Nat` for the unsigned fields) with
explicit wrap-around at every point where the C code truncates a wider
intermediate result to `int16_t` / `int32_t` / `uint16_t`.  External
collaborators (ADC sampling, PWM hardware, the current-offset calibration
routine) are modelled as per-cycle inputs and a `pwmEnabled` flag.
Configuration constants that live in the missing header `pfc.h` are kept
abstract in a `Params` record.
-/

/-- Wrap an integer to the `int16_t` range, two-complement style
(`%` on `Int` is the Euclidean remainder). -/
def wrap16 (x : Int) : Int := (x + 32768) % 65536 - 32768

/-- Wrap an integer to the `int32_t` range, two-complement style. -/
def wrap32 (x : Int) : Int :=
  (x + 2147483648) % 4294967296 - 2147483648

/-- Conversion of a signed value to `uint16_t` (reduction mod 2^16). -/
def toU16 (x : Int) : Nat := (x % 65536).toNat

/-- Arithmetic right shift by 15 of a (32-bit) signed value, as used by
`__builtin_mulss(a,b) >> 15`.  Arithmetic shift is floor division. -/
def asr15 (x : Int) : Int := Int.fdiv x 32768

/-- Arithmetic right shift by 18, as used in the current-reference scaling. -/
def asr18 (x : Int) : Int := Int.fdiv x 262144

/-- Arithmetic right shift by 12, as used in the `KMUL` scaling step. -/
def asr12 (x : Int) : Int := Int.fdiv x 4096

/-- Model of `__builtin_divf a b`: fractional 1.15 divide, i.e. the truncated
quotient `(a * 2^15) / b` wrapped to `int16_t`.  Hardware behaviour on a
zero divisor is undefined; the model returns the wrap of `Int.tdiv _ 0 = 0`
there (no claim depends on that value, only on the divisor being
positive, which the code guards). -/
def divf (a b : Int) : Int := wrap16 (Int.tdiv (a * 32768) b)

/-- Model of `__builtin_divsd a b`: truncated signed divide of a 32-bit dividend by
a 16-bit divisor. -/
def divsd (a b : Int) : Int := Int.tdiv a b

/-- Clamp `x` to the closed interval `[lo, hi]`. -/
def clampI (lo hi x : Int) : Int := max lo (min hi x)

/-- Model of `Q15(0.9999)` from `libq.h` (not in the sources): the 1.15 fixed-point
constant `32764`. -/
def Q15_0_9999 : Int := 32764

/-- Model of `Q15(0.999)` from `libq.h` (not in the sources): the 1.15 fixed-point
constant `32734`. -/
def Q15_0_999 : Int := 32734

/-- Modelled from the spec: the fault bits of the missing header `pfc.h`.
The spec requires the three fault-bit values to be disjoint powers of two;
`PFC_FAULT_NONE` is the empty mask. -/
def PFC_FAULT_NONE : Nat := 0

/-- Modelled from the spec: output over-voltage fault bit. -/
def PFC_FAULT_OP_OV : Nat := 1

/-- Modelled from the spec: input under-voltage fault bit. -/
def PFC_FAULT_IP_UV : Nat := 2

/-- Modelled from the spec: input over-voltage fault bit. -/
def PFC_FAULT_IP_OV : Nat := 4

/-- State encoding of the five controller states (values of the enum in
the missing header; any five distinct values are faithful). -/
def PFC_INIT : Nat := 0

/-- Model of `PFC_OFFSET_MEAS` state code. -/
def PFC_OFFSET_MEAS : Nat := 1

/-- Model of `PFC_WAIT_1CYCLE` state code. -/
def PFC_WAIT_1CYCLE : Nat := 2

/-- Model of `PFC_CTRL_RUN` state code. -/
def PFC_CTRL_RUN : Nat := 3

/-- Model of `PFC_FAULT` state code. -/
def PFC_FAULT : Nat := 4

/-- Modelled from the spec: the configuration constants of the missing
header `pfc.h` (gains, limits, thresholds, loop rates), kept abstract. -/
structure Params where
  PFC_MIN_DUTY : Nat
  PFC_MAX_DUTY : Nat
  PFC_LOOPTIME_TCY : Int
  KI_I_INTGRAL_OUT_MAX : Int
  PFC_OUPUT_VOLTAGE_REFERENCE : Int
  RAMP_COUNT : Int
  RAMP_RATE : Nat
  VOLTAGE_LOOP_EXE_RATE : Nat
  KI_V : Int
  KMUL : Int
  PFC_MIN_CURRENTREF_PEAK_Q15 : Int
  PFC_OUTPUT_OVER_VOLTAGE_LIMIT : Int
  PFC_INPUT_UNDER_VOLTAGE_LIMIT_LO : Int
  PFC_INPUT_UNDER_VOLTAGE_LIMIT_HI : Int
  PFC_INPUT_OVER_VOLTAGE_LIMIT_LO : Int
  PFC_INPUT_OVER_VOLTAGE_LIMIT_HI : Int
  PFC_RMS_SQUARE_COUNTMAX : Nat
  PFC_AVG_SCALER : Nat
  PFC_INPUT_FREQUENCY_COUNTER : Nat
  KP_I : Int
  KI_I : Int
  KP_I_SCALE : Nat
  KI_I_SCALE : Nat
  KP_V : Int
  KP_V_SCALE : Nat
  KI_V_SCALE : Nat
  deriving Repr

/-- Model of `PFC_AVG_T`: moving-average filter state (`sum` is the `int32_t`
accumulator, `samples`, `sampleLimit`, `status`, `scaler` are `uint16_t`,
`output` is `int16_t`). -/
structure PFC_AVG_T where
  sum : Int
  samples : Nat
  sampleLimit : Nat
  output : Int
  status : Nat
  scaler : Nat
  deriving Repr, DecidableEq

/-- Model of `PFC_RMS_SQUARE_T`: mean-square accumulator state. -/
structure PFC_RMS_SQUARE_T where
  sum : Int
  samples : Nat
  sampleLimit : Nat
  sqrOutput : Int
  status : Nat
  peak : Int
  deriving Repr, DecidableEq

/-- Model of `PFC_PI_T`: fixed-point PI controller state. -/
structure PFC_PI_T where
  kp : Int
  ki : Int
  kpScale : Nat
  kiScale : Nat
  integralOut : Int
  minOutput : Int
  maxOutput : Int
  reference : Int
  error : Int
  output : Int
  deriving Repr, DecidableEq

/-- Model of `PFC_MEASURE_VOLTAGE_T`: raw voltage samples plus the AC offset. -/
structure PFC_MEASURE_VOLTAGE_T where
  vdc : Int
  vac : Int
  offsetVac : Int
  deriving Repr, DecidableEq

/-- Model of `PFC_MEASURE_CURRENT_T`: raw inductor-current sample plus the
calibration offset and its ready status. -/
structure PFC_MEASURE_CURRENT_T where
  iL : Int
  offset : Int
  status : Nat
  deriving Repr, DecidableEq

/-- Model of `PFC_T`: the whole control context of `pfc.c`, plus a `pwmEnabled`
flag modelling the externally visible power-stage enable state. -/
structure PFC_T where
  pfcVoltage : PFC_MEASURE_VOLTAGE_T
  pfcCurrent : PFC_MEASURE_CURRENT_T
  iL : Int
  vdcAVG : PFC_AVG_T
  vacAVG : PFC_AVG_T
  vacRMS : PFC_RMS_SQUARE_T
  piVoltage : PFC_PI_T
  piCurrent : PFC_PI_T
  state : Nat
  faultStatus : Nat
  duty : Nat
  boostDutyRatio : Int
  rectifiedVac : Int
  currentReference : Int
  averageCurrent : Int
  rampRate : Nat
  voltLoopExeRate : Nat
  sampleCorrectionEnable : Nat
  pwmEnabled : Bool
  deriving Repr, DecidableEq

/-- Per-cycle external inputs: the three ADC samples read by
`PFC_ADCInterrupt`, and the result of the external current-offset
calibration collaborator (`PFC_MeasureCurrentOffset`). -/
structure PFC_INPUT where
  vdc : Int
  vac : Int
  iL : Int
  offsetReady : Bool
  offsetVal : Int
  deriving Repr, DecidableEq

/-- Model of `PFC_Average` (pfc.c:577): moving-average filter step.  The second
component records the divisor used when the window completes. -/
def PFC_Average (d : PFC_AVG_T) (input : Int) : PFC_AVG_T × List Int :=
  let sum := wrap32 (d.sum + input)
  let samples := (d.samples + 1) % 65536
  if samples ≥ d.sampleLimit then
    ({ d with output := wrap16 (divsd sum (Int.ofNat d.sampleLimit)),
              status := 1, sum := 0, samples := 0 },
     [Int.ofNat d.sampleLimit])
  else
    ({ d with sum := sum, samples := samples }, [])

/-- Model of `PFC_SquaredRMSCalculate` (pfc.c:550): mean-square accumulator step.
Note that the sample counter is tested before being incremented, so a
window spans `sampleLimit + 1` calls. -/
def PFC_SquaredRMSCalculate (d : PFC_RMS_SQUARE_T) (input : Int) :
    PFC_RMS_SQUARE_T × List Int :=
  let sum := wrap32 (d.sum + wrap16 (asr15 (input * input)))
  if d.samples < d.sampleLimit then
    ({ d with sum := sum, samples := (d.samples + 1) % 65536 }, [])
  else
    ({ d with sqrOutput := wrap16 (divsd sum (Int.ofNat d.sampleLimit)),
              status := 1, samples := 0, sum := 0 },
     [Int.ofNat d.sampleLimit])

/-- Model of `PFC_SignalRectification` (pfc.c:528): full-wave rectifier
`|vac - offsetVac|` in wrapping `int16_t` arithmetic. -/
def PFC_SignalRectification (pSignal : PFC_MEASURE_VOLTAGE_T) : Int :=
  let output := wrap16 (pSignal.vac - pSignal.offsetVac)
  if output < 0 then wrap16 (-output) else output

/-- Modelled from the spec: `PFC_PIController` lives outside the given
sources.  Per spec section 4.4: proportional = `(error * kp) >> kpScale`
(arithmetic shift), `integralOut += (error * ki) >> kiScale` with the
integral accumulator itself clamped to the output bounds (anti-windup),
output = clamp of the sum to `[minOutput, maxOutput]`; `error` and
`output` are exposed for diagnostics. -/
def PFC_PIController (s : PFC_PI_T) (error : Int) : PFC_PI_T :=
  let prop := Int.fdiv (error * s.kp) (2 ^ s.kpScale)
  let integ := clampI s.minOutput s.maxOutput
      (s.integralOut + Int.fdiv (error * s.ki) (2 ^ s.kiScale))
  { s with error := error, integralOut := integ,
           output := clampI s.minOutput s.maxOutput (prop + integ) }

/-- Model of `PFC_CurrentSampleCorrection` (pfc.c:370): DCM average-current
recovery; records the divisor of the guarded fractional divide. -/
def PFC_CurrentSampleCorrection (pData : PFC_T) : Int × List Int :=
  let output := Q15_0_9999
  let r :=
    if pData.boostDutyRatio > 0 then
      (divf pData.piCurrent.output pData.boostDutyRatio, [pData.boostDutyRatio])
    else (output, ([] : List Int))
  let out2 :=
    if r.1 > 0 then wrap16 (asr15 (pData.iL * r.1)) else pData.iL
  (out2, r.2)

/-- Model of `PFC_CurrentControlLoop` (pfc.c:402): inner current loop, duty
computation and anti-windup clamp. -/
def PFC_CurrentControlLoop (p : Params) (pData : PFC_T) : PFC_T × List Int :=
  let s0 := if pData.iL < 0 then { pData with iL := 1 } else pData
  let corr :=
    if s0.sampleCorrectionEnable = 1 then PFC_CurrentSampleCorrection s0
    else (s0.iL, ([] : List Int))
  let s1 := { s0 with averageCurrent := corr.1 }
  let s2 := { s1 with
    piCurrent := PFC_PIController s1.piCurrent
      (wrap16 (s1.currentReference - s1.averageCurrent)) }
  let duty := toU16 (asr15 (s2.piCurrent.output * p.PFC_LOOPTIME_TCY))
  if duty > p.PFC_MAX_DUTY then
    ({ s2 with duty := p.PFC_MAX_DUTY,
               piCurrent := { s2.piCurrent with
                 integralOut := p.KI_I_INTGRAL_OUT_MAX } }, corr.2)
  else if duty < p.PFC_MIN_DUTY then
    ({ s2 with duty := p.PFC_MIN_DUTY }, corr.2)
  else
    ({ s2 with duty := duty }, corr.2)

/-- Model of `PFC_CurrentRefGenerate` (pfc.c:452): decimated voltage loop with gain
scheduling, then the power-control feed-forward reference shaping
(`PFC_POWER_CONTROL` enabled) with its guarded RMS-square divide, and the
final boundary clamp. -/
def PFC_CurrentRefGenerate (p : Params) (pData : PFC_T) : PFC_T × List Int :=
  let s0 :=
    if pData.voltLoopExeRate > p.VOLTAGE_LOOP_EXE_RATE then
      let err := wrap16 (pData.piVoltage.reference - pData.vdcAVG.output)
      let ki := if err > 700 ∨ err < -700 then Int.fdiv p.KI_V 2 else p.KI_V
      let piV := PFC_PIController
        { pData.piVoltage with error := err, ki := ki } err
      { pData with piVoltage := piV, voltLoopExeRate := 0 }
    else
      { pData with voltLoopExeRate := (pData.voltLoopExeRate + 1) % 65536 }
  let t1 := wrap16 (asr18 (s0.piVoltage.output * s0.rectifiedVac))
  let t2 :=
    if s0.vacRMS.sqrOutput > 0 then
      (divf t1 s0.vacRMS.sqrOutput, [s0.vacRMS.sqrOutput])
    else (t1, ([] : List Int))
  let s1 := { s0 with currentReference := wrap16 (asr12 (t2.1 * p.KMUL)) }
  let s2 :=
    if s1.currentReference > Q15_0_999 then
      { s1 with currentReference := Q15_0_999 }
    else if s1.currentReference < 0 then
      { s1 with currentReference := 0 }
    else s1
  (s2, t2.2)

/-- Model of `PFC_FaultCheck` (pfc.c:602): threshold checks; each detected
condition adds its bit to the bitmask with `+=` (wrapping `uint16_t`
addition). -/
def PFC_FaultCheck (p : Params) (pData : PFC_T) : PFC_T :=
  let fs0 := pData.faultStatus
  let fs1 :=
    if pData.vdcAVG.output ≥ p.PFC_OUTPUT_OVER_VOLTAGE_LIMIT then
      (fs0 + PFC_FAULT_OP_OV) % 65536
    else fs0
  let fs2 :=
    if pData.vacRMS.sqrOutput < p.PFC_INPUT_UNDER_VOLTAGE_LIMIT_LO then
      (fs1 + PFC_FAULT_IP_UV) % 65536
    else fs1
  let fs3 :=
    if pData.vacRMS.sqrOutput ≥ p.PFC_INPUT_OVER_VOLTAGE_LIMIT_HI then
      (fs2 + PFC_FAULT_IP_OV) % 65536
    else fs2
  { pData with faultStatus := fs3 }

/-- Model of `PFC_ResetParams` (pfc.c:335): resets the Vdc average filter, the Vac
average sum and sample count (note: not the Vac average status), the RMS
accumulator, both PI integrals and the duty. -/
def PFC_ResetParams (pData : PFC_T) : PFC_T :=
  { pData with
    vdcAVG := { pData.vdcAVG with sum := 0, samples := 0, status := 0 },
    vacAVG := { pData.vacAVG with sum := 0, samples := 0 },
    vacRMS := { pData.vacRMS with sum := 0, samples := 0, peak := 0,
                                  status := 0 },
    piVoltage := { pData.piVoltage with integralOut := 0 },
    piCurrent := { pData.piCurrent with integralOut := 0 },
    duty := 0 }

/-- Model of `PFC_ParamsInit` (pfc.c:292): one-time initialisation of filter
limits, PI gains and bounds, state and fault status. -/
def PFC_ParamsInit (p : Params) (pData : PFC_T) : PFC_T :=
  { pData with
    vacRMS := { pData.vacRMS with sampleLimit := p.PFC_RMS_SQUARE_COUNTMAX },
    vdcAVG := { pData.vdcAVG with scaler := p.PFC_AVG_SCALER,
                                  sampleLimit := 2 ^ p.PFC_AVG_SCALER },
    vacAVG := { pData.vacAVG with
                  sampleLimit := p.PFC_INPUT_FREQUENCY_COUNTER },
    piCurrent := { pData.piCurrent with
      kp := p.KP_I, ki := p.KI_I, kpScale := p.KP_I_SCALE,
      kiScale := p.KI_I_SCALE, maxOutput := 32767, minOutput := 0 },
    piVoltage := { pData.piVoltage with
      kp := p.KP_V, ki := p.KI_V, kpScale := p.KP_V_SCALE,
      kiScale := p.KI_V_SCALE, maxOutput := 32767, minOutput := 0 },
    state := PFC_INIT,
    faultStatus := PFC_FAULT_NONE,
    sampleCorrectionEnable := 0 }

/-- Signal conditioning stage run unconditionally at the top of
`PFC_StateMachine` (pfc.c:128-140): Vdc average, Vac average feeding the
AC offset, rectification, and the RMS-square accumulator. -/
def PFC_SignalConditioning (s0 : PFC_T) : PFC_T × List Int :=
  let a1 := PFC_Average s0.vdcAVG s0.pfcVoltage.vdc
  let a2 := PFC_Average s0.vacAVG s0.pfcVoltage.vac
  let s1 := { s0 with
      vdcAVG := a1.1, vacAVG := a2.1,
      pfcVoltage := { s0.pfcVoltage with offsetVac := a2.1.output } }
  let s2 := { s1 with rectifiedVac := PFC_SignalRectification s1.pfcVoltage }
  let r3 := PFC_SquaredRMSCalculate s2.vacRMS s2.rectifiedVac
  ({ s2 with vacRMS := r3.1 }, a1.2 ++ a2.2 ++ r3.2)

/-- Soft-start ramp of the voltage-loop reference (pfc.c:187-203). -/
def PFC_SoftStart (p : Params) (s : PFC_T) : PFC_T :=
  if s.piVoltage.reference < p.PFC_OUPUT_VOLTAGE_REFERENCE then
    if s.rampRate = 0 then
      { s with
          piVoltage := { s.piVoltage with
            reference := wrap16 (s.piVoltage.reference + p.RAMP_COUNT) },
          rampRate := p.RAMP_RATE }
    else
      { s with rampRate := s.rampRate - 1 }
  else
    { s with
        piVoltage := { s.piVoltage with
          reference := p.PFC_OUPUT_VOLTAGE_REFERENCE } }

/-- Model of `PFC_INIT` branch of the state machine (pfc.c:144-152).
`HAL_PFCPWMDisableOutputs` is modelled as clearing `pwmEnabled`, and the
external `PFC_MeasureCurrentInit` as clearing the offset ready status. -/
def PFC_InitBranch (s : PFC_T) : PFC_T :=
  let s1 := PFC_ResetParams s
  let s2 := { s1 with pwmEnabled := false,
                      pfcCurrent := { s1.pfcCurrent with status := 0 } }
  { s2 with state := PFC_OFFSET_MEAS }

/-- Model of `PFC_OFFSET_MEAS` branch (pfc.c:153-167).  The external calibration
routine `PFC_MeasureCurrentOffset` is modelled from the spec: a
collaborator exposing a ready flag and an offset result, supplied as part
of the per-cycle input. -/
def PFC_OffsetMeasBranch (inp : PFC_INPUT) (s : PFC_T) : PFC_T :=
  let s1 := { s with
      pfcCurrent := { s.pfcCurrent with
        offset := inp.offsetVal,
        status := if inp.offsetReady then 1 else 0 } }
  if s1.pfcCurrent.status = 1 then
    if s1.vacAVG.status = 1 then
      { s1 with
          piVoltage := { s1.piVoltage with reference := s1.vdcAVG.output },
          pfcVoltage := { s1.pfcVoltage with offsetVac := s1.vacAVG.output },
          state := PFC_WAIT_1CYCLE }
    else s1
  else s1

/-- Model of `PFC_WAIT_1CYCLE` branch (pfc.c:168-176). -/
def PFC_WaitBranch (s : PFC_T) : PFC_T :=
  if s.vacRMS.status = 1 then
    { s with pwmEnabled := true, state := PFC_CTRL_RUN }
  else s

/-- Model of `PFC_CTRL_RUN` branch (pfc.c:177-229).  The compile-time switch
`ENABLE_PFC_CURRENT_OFFSET_CORRECTION` is modelled as enabled (the spec
describes the startup offset calibration as feeding the current loop). -/
def PFC_CtrlRunBranch (p : Params) (s : PFC_T) : PFC_T × List Int :=
  let s1 := { s with iL := wrap16 (s.pfcCurrent.iL - s.pfcCurrent.offset) }
  let s2 := PFC_FaultCheck p s1
  if s2.faultStatus = PFC_FAULT_NONE then
    let s3 := PFC_SoftStart p s2
    let r4 := PFC_CurrentRefGenerate p s3
    let s5 :=
      if r4.1.pfcVoltage.vdc > 0 then
        { r4.1 with
            boostDutyRatio := divf (r4.1.pfcVoltage.vdc - r4.1.rectifiedVac)
              r4.1.pfcVoltage.vdc }
      else r4.1
    let dv5 :=
      if r4.1.pfcVoltage.vdc > 0 then [r4.1.pfcVoltage.vdc]
      else ([] : List Int)
    let r6 := PFC_CurrentControlLoop p s5
    let s7 :=
      if r6.1.piVoltage.output < p.PFC_MIN_CURRENTREF_PEAK_Q15 then
        { r6.1 with
            duty := 0,
            piCurrent := { r6.1.piCurrent with integralOut := 0 } }
      else r6.1
    (s7, r4.2 ++ dv5 ++ r6.2)
  else
    ({ s2 with state := PFC_FAULT }, [])

/-- Model of `PFC_FAULT` branch (pfc.c:230-250): force duty to 0, disable the
power stage, clear the recoverable input-fault bits by hysteresis, and on
a fully clear bitmask reset both integrals, reseed the voltage reference
and return to `PFC_CTRL_RUN` with the power stage re-enabled. -/
def PFC_FaultBranch (p : Params) (s : PFC_T) : PFC_T :=
  let s1 := { s with duty := 0, pwmEnabled := false }
  let fs1 :=
    if s1.vacRMS.sqrOutput ≥ p.PFC_INPUT_UNDER_VOLTAGE_LIMIT_HI then
      s1.faultStatus &&& (65535 ^^^ PFC_FAULT_IP_UV)
    else s1.faultStatus
  let fs2 :=
    if s1.vacRMS.sqrOutput < p.PFC_INPUT_OVER_VOLTAGE_LIMIT_LO then
      fs1 &&& (65535 ^^^ PFC_FAULT_IP_OV)
    else fs1
  let s2 := { s1 with faultStatus := fs2 }
  if s2.faultStatus = PFC_FAULT_NONE then
    { s2 with
        piVoltage := { s2.piVoltage with
          integralOut := 0, reference := s2.vdcAVG.output },
        piCurrent := { s2.piCurrent with integralOut := 0 },
        state := PFC_CTRL_RUN,
        pwmEnabled := true }
  else s2

/-- Model of `PFC_StateMachine` (pfc.c:122): signal conditioning followed by the
state dispatch.  The second component collects the divisors of every
division the cycle actually performed. -/
def PFC_StateMachine (p : Params) (inp : PFC_INPUT) (s : PFC_T) :
    PFC_T × List Int :=
  let c := PFC_SignalConditioning s
  let s1 := c.1
  if s1.state = PFC_INIT then (PFC_InitBranch s1, c.2)
  else if s1.state = PFC_OFFSET_MEAS then (PFC_OffsetMeasBranch inp s1, c.2)
  else if s1.state = PFC_WAIT_1CYCLE then (PFC_WaitBranch s1, c.2)
  else if s1.state = PFC_CTRL_RUN then
    let r := PFC_CtrlRunBranch p s1
    (r.1, c.2 ++ r.2)
  else if s1.state = PFC_FAULT then (PFC_FaultBranch p s1, c.2)
  else (s1, c.2)

/-- Model of `PFC_ADCInterrupt` (pfc.c:92): load the three ADC samples into the
context, then run the state machine. -/
def PFC_ADCInterrupt (p : Params) (inp : PFC_INPUT) (s : PFC_T) :
    PFC_T × List Int :=
  PFC_StateMachine p inp
    { s with
        pfcVoltage := { s.pfcVoltage with vdc := inp.vdc, vac := inp.vac },
        pfcCurrent := { s.pfcCurrent with iL := inp.iL } }

/-- The all-zero context: the global `PFC_T pfcParam` has static storage
duration, hence is zero-initialised before `PFC_ParamsInit` runs. -/
def zeroPFC : PFC_T :=
  { pfcVoltage := { vdc := 0, vac := 0, offsetVac := 0 },
    pfcCurrent := { iL := 0, offset := 0, status := 0 },
    iL := 0,
    vdcAVG := { sum := 0, samples := 0, sampleLimit := 0, output := 0,
                status := 0, scaler := 0 },
    vacAVG := { sum := 0, samples := 0, sampleLimit := 0, output := 0,
                status := 0, scaler := 0 },
    vacRMS := { sum := 0, samples := 0, sampleLimit := 0, sqrOutput := 0,
                status := 0, peak := 0 },
    piVoltage := { kp := 0, ki := 0, kpScale := 0, kiScale := 0,
                   integralOut := 0, minOutput := 0, maxOutput := 0,
                   reference := 0, error := 0, output := 0 },
    piCurrent := { kp := 0, ki := 0, kpScale := 0, kiScale := 0,
                   integralOut := 0, minOutput := 0, maxOutput := 0,
                   reference := 0, error := 0, output := 0 },
    state := 0, faultStatus := 0, duty := 0, boostDutyRatio := 0,
    rectifiedVac := 0, currentReference := 0, averageCurrent := 0,
    rampRate := 0, voltLoopExeRate := 0, sampleCorrectionEnable := 0,
    pwmEnabled := false }

/-- The context right after `PFC_ServiceInit` ran `PFC_ParamsInit`. -/
def initState (p : Params) : PFC_T := PFC_ParamsInit p zeroPFC

/-- The contexts reachable from the initialised controller under an
arbitrary sequence of per-cycle inputs. -/
inductive Reachable (p : Params) : PFC_T → Prop where
  | init : Reachable p (initState p)
  | step : ∀ (s : PFC_T) (inp : PFC_INPUT), Reachable p s →
      Reachable p (PFC_ADCInterrupt p inp s).1

/-- Iterated moving-average filter: feed the same input `n` times. -/
def PFC_AverageIter (d : PFC_AVG_T) (input : Int) : Nat → PFC_AVG_T
  | 0 => d
  | n + 1 => (PFC_Average (PFC_AverageIter d input n) input).1

/-- Iterated mean-square accumulator: feed the same input `n` times. -/
def PFC_SquaredRMSIter (d : PFC_RMS_SQUARE_T) (input : Int) :
    Nat → PFC_RMS_SQUARE_T
  | 0 => d
  | n + 1 => (PFC_SquaredRMSCalculate (PFC_SquaredRMSIter d input n) input).1

theorem wrap16_eq_self {x : Int} (h1 : -32768 ≤ x) (h2 : x ≤ 32767) :
    wrap16 x = x := by
  unfold wrap16
  rw [Int.emod_eq_of_lt (by omega) (by omega)]
  omega

theorem wrap32_eq_self {x : Int} (h1 : -2147483648 ≤ x)
    (h2 : x ≤ 2147483647) : wrap32 x = x := by
  unfold wrap32
  rw [Int.emod_eq_of_lt (by omega) (by omega)]
  omega

theorem wrap16_bounds (x : Int) : -32768 ≤ wrap16 x ∧ wrap16 x ≤ 32767 := by
  unfold wrap16
  have h1 := Int.emod_nonneg (x + 32768) (b := 65536) (by omega)
  have h2 := Int.emod_lt_of_pos (x + 32768) (b := 65536) (by omega)
  omega

theorem int16_sum_bound {M V : Int} (hM1 : 0 ≤ M) (hM2 : M ≤ 65536)
    (hV1 : -32768 ≤ V) (hV2 : V ≤ 32767) :
    -2147483648 ≤ M * V ∧ M * V ≤ 2147483647 := by
  constructor <;> nlinarith

/-- Closed form of the first `k < sampleLimit` calls of the
moving-average filter on a constant input, from a reset state. -/
theorem avgIter_mid (d : PFC_AVG_T) (V : Int) (N : Nat)
    (hN : N ≤ 65535) (hV1 : -32768 ≤ V) (hV2 : V ≤ 32767)
    (hsum : d.sum = 0) (hsamp : d.samples = 0) (hlim : d.sampleLimit = N) :
    ∀ k, k < N →
      (PFC_AverageIter d V k).sum = k * V ∧
      (PFC_AverageIter d V k).samples = k ∧
      (PFC_AverageIter d V k).sampleLimit = N ∧
      (PFC_AverageIter d V k).status = d.status ∧
      (PFC_AverageIter d V k).output = d.output := by
  intro k
  induction k with
  | zero =>
    intro _
    exact ⟨by simpa [PFC_AverageIter] using hsum,
           by simpa [PFC_AverageIter] using hsamp,
           by simpa [PFC_AverageIter] using hlim, rfl, rfl⟩
  | succ n ih =>
    intro hk
    obtain ⟨h1, h2, h3, h4, h5⟩ := ih (Nat.lt_of_succ_lt hk)
    have hb := int16_sum_bound (M := (n : Int) + 1)
      (by omega) (by omega) hV1 hV2
    have hsum' : wrap32 ((PFC_AverageIter d V n).sum + V) =
        ((n + 1 : Nat) : Int) * V := by
      rw [h1]
      have hcast : (n : Int) * V + V = ((n : Int) + 1) * V := by ring
      rw [hcast, wrap32_eq_self hb.1 hb.2]
      have : ((n + 1 : Nat) : Int) = (n : Int) + 1 := by omega
      rw [this]
    have hsamp' : ((PFC_AverageIter d V n).samples + 1) % 65536 = n + 1 := by
      rw [h2]
      omega
    have hstep : PFC_AverageIter d V (n + 1) =
        { PFC_AverageIter d V n with
            sum := ((n + 1 : Nat) : Int) * V, samples := n + 1 } := by
      show (PFC_Average (PFC_AverageIter d V n) V).1 = _
      unfold PFC_Average
      dsimp only
      rw [hsamp', h3, if_neg (by omega : ¬ (n + 1 ≥ N)), hsum']
    rw [hstep]
    exact ⟨rfl, rfl, h3, h4, h5⟩

/-- C6: starting from a reset moving-average filter with window `N ≥ 1`,
feeding a constant `V` for exactly `N` calls yields output `V`, the
status flag goes from 0 to 1 exactly on call `N`, and sum and samples
are reset to 0. -/
theorem c6_average_window (d : PFC_AVG_T) (V : Int) (N : Nat)
    (hN1 : 1 ≤ N) (hN : N ≤ 65535) (hV1 : -32768 ≤ V) (hV2 : V ≤ 32767)
    (hsum : d.sum = 0) (hsamp : d.samples = 0) (hst : d.status = 0)
    (hlim : d.sampleLimit = N) :
    (PFC_AverageIter d V N).output = V ∧
    (∀ k, k ≤ N →
      (PFC_AverageIter d V k).status = if k = N then 1 else 0) ∧
    (PFC_AverageIter d V N).sum = 0 ∧
    (PFC_AverageIter d V N).samples = 0 := by
  obtain ⟨m, rfl⟩ : ∃ m, N = m + 1 := ⟨N - 1, by omega⟩
  obtain ⟨h1, h2, h3, h4, h5⟩ :=
    avgIter_mid d V (m + 1) hN hV1 hV2 hsum hsamp hlim m (by omega)
  have hb := int16_sum_bound (M := (m : Int) + 1) (by omega) (by omega) hV1 hV2
  have hsum' : wrap32 ((PFC_AverageIter d V m).sum + V) =
      ((m : Int) + 1) * V := by
    rw [h1]
    have : (m : Int) * V + V = ((m : Int) + 1) * V := by ring
    rw [this, wrap32_eq_self hb.1 hb.2]
  have hsamp' : ((PFC_AverageIter d V m).samples + 1) % 65536 = m + 1 := by
    rw [h2]
    omega
  have hdiv : divsd (((m : Int) + 1) * V) (Int.ofNat (m + 1)) = V := by
    unfold divsd
    have hne : ((m : Int) + 1) ≠ 0 := by omega
    have hco : (Int.ofNat (m + 1)) = (m : Int) + 1 := by
      rw [Int.ofNat_eq_natCast]
      push_cast
      ring
    rw [hco]
    exact Int.mul_tdiv_cancel_left V hne
  have hstep : (PFC_AverageIter d V (m + 1)) =
      { (PFC_AverageIter d V m) with
          output := wrap16 V, status := 1, sum := 0, samples := 0 } := by
    show (PFC_Average (PFC_AverageIter d V m) V).1 = _
    unfold PFC_Average
    rw [hsamp', h3]
    simp only [if_pos (by omega : m + 1 ≥ m + 1)]
    rw [hsum', h3, hdiv]
  refine ⟨?_, ?_, ?_, ?_⟩
  · rw [hstep]
    exact wrap16_eq_self hV1 hV2
  · intro k hk
    rcases Nat.lt_or_ge k (m + 1) with hlt | hge
    · obtain ⟨_, _, _, hstat, _⟩ :=
        avgIter_mid d V (m + 1) hN hV1 hV2 hsum hsamp hlim k hlt
      rw [hstat, hst, if_neg (by omega)]
    · have : k = m + 1 := by omega
      subst this
      rw [hstep, if_pos rfl]
  · rw [hstep]
  · rw [hstep]

/-- C6 witness: instantiation at `V = 7`, `N = 3`. -/
theorem c6_witness :
    ((PFC_AverageIter
        { sum := 0, samples := 0, sampleLimit := 3, output := 0,
          status := 0, scaler := 0 } 7 3).output = 7 ∧
    (∀ k, k ≤ 3 →
      (PFC_AverageIter
        { sum := 0, samples := 0, sampleLimit := 3, output := 0,
          status := 0, scaler := 0 } 7 k).status =
        if k = 3 then 1 else 0) ∧
    (PFC_AverageIter
        { sum := 0, samples := 0, sampleLimit := 3, output := 0,
          status := 0, scaler := 0 } 7 3).sum = 0 ∧
    (PFC_AverageIter
        { sum := 0, samples := 0, sampleLimit := 3, output := 0,
          status := 0, scaler := 0 } 7 3).samples = 0) :=
  c6_average_window
    { sum := 0, samples := 0, sampleLimit := 3, output := 0,
      status := 0, scaler := 0 } 7 3
    (by decide) (by decide) (by decide) (by decide)
    (by decide) (by decide) (by decide) (by decide)

/-- Closed form of the first `k ≤ sampleLimit` calls of the mean-square
accumulator on a constant input, from a reset state: the `k`-th call is
still non-completing even at `k = sampleLimit`, because the sample
counter is compared before being incremented. -/
theorem rmsIter_mid (d : PFC_RMS_SQUARE_T) (A : Int) (N : Nat)
    (hN : N ≤ 65534)
    (hsum : d.sum = 0) (hsamp : d.samples = 0) (hlim : d.sampleLimit = N) :
    ∀ k, k ≤ N →
      (PFC_SquaredRMSIter d A k).sum =
        (k : Int) * wrap16 (asr15 (A * A)) ∧
      (PFC_SquaredRMSIter d A k).samples = k ∧
      (PFC_SquaredRMSIter d A k).sampleLimit = N ∧
      (PFC_SquaredRMSIter d A k).status = d.status ∧
      (PFC_SquaredRMSIter d A k).sqrOutput = d.sqrOutput := by
  intro k
  induction k with
  | zero =>
    intro _
    exact ⟨by simpa [PFC_SquaredRMSIter] using hsum,
           by simpa [PFC_SquaredRMSIter] using hsamp,
           by simpa [PFC_SquaredRMSIter] using hlim, rfl, rfl⟩
  | succ n ih =>
    intro hk
    obtain ⟨h1, h2, h3, h4, h5⟩ := ih (by omega)
    have hq := wrap16_bounds (asr15 (A * A))
    have hb := int16_sum_bound (M := (n : Int) + 1)
      (by omega) (by omega) hq.1 hq.2
    have hsum' : wrap32 ((PFC_SquaredRMSIter d A n).sum +
        wrap16 (asr15 (A * A))) =
        ((n + 1 : Nat) : Int) * wrap16 (asr15 (A * A)) := by
      rw [h1]
      have hcast : (n : Int) * wrap16 (asr15 (A * A)) + wrap16 (asr15 (A * A))
          = ((n : Int) + 1) * wrap16 (asr15 (A * A)) := by ring
      rw [hcast, wrap32_eq_self hb.1 hb.2]
      have : ((n + 1 : Nat) : Int) = (n : Int) + 1 := by omega
      rw [this]
    have hstep : PFC_SquaredRMSIter d A (n + 1) =
        { PFC_SquaredRMSIter d A n with
            sum := ((n + 1 : Nat) : Int) * wrap16 (asr15 (A * A)),
            samples := n + 1 } := by
      show (PFC_SquaredRMSCalculate (PFC_SquaredRMSIter d A n) A).1 = _
      unfold PFC_SquaredRMSCalculate
      dsimp only
      rw [h2, h3, if_pos (by omega : n < N), hsum']
      have : (n + 1) % 65536 = n + 1 := by omega
      rw [this]
    rw [hstep]
    exact ⟨rfl, rfl, h3, h4, h5⟩

/-- C5 counterexample: with `sampleLimit = 1` and constant input 256
(scaled square `(256*256) >> 15 = 2`), the first call leaves the status
at 0 and the output untouched, and the window actually completes on the
second call with output `4 = 2*2`, not the scaled square 2 — the
accumulator averages `sampleLimit + 1` samples over `sampleLimit`. -/
theorem c5_counterexample :
    wrap16 (asr15 ((256 : Int) * 256)) = 2 ∧
    (PFC_SquaredRMSIter
        { sum := 0, samples := 0, sampleLimit := 1, sqrOutput := 0,
          status := 0, peak := 0 } 256 1).status = 0 ∧
    (PFC_SquaredRMSIter
        { sum := 0, samples := 0, sampleLimit := 1, sqrOutput := 0,
          status := 0, peak := 0 } 256 1).sqrOutput = 0 ∧
    (PFC_SquaredRMSIter
        { sum := 0, samples := 0, sampleLimit := 1, sqrOutput := 0,
          status := 0, peak := 0 } 256 2).status = 1 ∧
    (PFC_SquaredRMSIter
        { sum := 0, samples := 0, sampleLimit := 1, sqrOutput := 0,
          status := 0, peak := 0 } 256 2).sqrOutput = 4 := by
  decide

/-- C5 amended: from a reset accumulator with window `N ≥ 1`, a constant
input `A` leaves the status at 0 through the first `N` calls; the window
completes on call `N + 1`, which sets the status, resets sum/samples,
and outputs the truncated quotient of `N + 1` scaled squares by `N`
(equal to the scaled square of `A` only when the extra sample is
absorbed by truncation). -/
theorem c5_meansquare_amended (d : PFC_RMS_SQUARE_T) (A : Int) (N : Nat)
    (hN1 : 1 ≤ N) (hN : N ≤ 65534)
    (hsum : d.sum = 0) (hsamp : d.samples = 0) (hst : d.status = 0)
    (hlim : d.sampleLimit = N) :
    (∀ k, k ≤ N → (PFC_SquaredRMSIter d A k).status = 0) ∧
    (PFC_SquaredRMSIter d A (N + 1)).status = 1 ∧
    (PFC_SquaredRMSIter d A (N + 1)).sqrOutput =
      wrap16 (divsd (((N + 1 : Nat) : Int) * wrap16 (asr15 (A * A)))
        (Int.ofNat N)) ∧
    (PFC_SquaredRMSIter d A (N + 1)).sum = 0 ∧
    (PFC_SquaredRMSIter d A (N + 1)).samples = 0 := by
  obtain ⟨h1, h2, h3, h4, h5⟩ :=
    rmsIter_mid d A N hN hsum hsamp hlim N (by omega)
  have hq := wrap16_bounds (asr15 (A * A))
  have hb := int16_sum_bound (M := (N : Int) + 1)
    (by omega) (by omega) hq.1 hq.2
  have hsum' : wrap32 ((PFC_SquaredRMSIter d A N).sum +
      wrap16 (asr15 (A * A))) =
      ((N + 1 : Nat) : Int) * wrap16 (asr15 (A * A)) := by
    rw [h1]
    have hcast : (N : Int) * wrap16 (asr15 (A * A)) + wrap16 (asr15 (A * A))
        = ((N : Int) + 1) * wrap16 (asr15 (A * A)) := by ring
    rw [hcast, wrap32_eq_self hb.1 hb.2]
    have : ((N + 1 : Nat) : Int) = (N : Int) + 1 := by omega
    rw [this]
  have hstep : PFC_SquaredRMSIter d A (N + 1) =
      { PFC_SquaredRMSIter d A N with
          sqrOutput := wrap16 (divsd
            (((N + 1 : Nat) : Int) * wrap16 (asr15 (A * A))) (Int.ofNat N)),
          status := 1, samples := 0, sum := 0 } := by
    show (PFC_SquaredRMSCalculate (PFC_SquaredRMSIter d A N) A).1 = _
    unfold PFC_SquaredRMSCalculate
    dsimp only
    rw [h2, h3, if_neg (by omega : ¬ (N < N)), hsum']
  refine ⟨?_, ?_, ?_, ?_, ?_⟩
  · intro k hk
    obtain ⟨_, _, _, hstat, _⟩ := rmsIter_mid d A N hN hsum hsamp hlim k hk
    rw [hstat, hst]
  · rw [hstep]
  · rw [hstep]
  · rw [hstep]
  · rw [hstep]

/-- C5 amended witness: instantiation at `A = 256`, `N = 1`. -/
theorem c5_amended_witness :
    ((∀ k, k ≤ 1 → (PFC_SquaredRMSIter
        { sum := 0, samples := 0, sampleLimit := 1, sqrOutput := 0,
          status := 0, peak := 0 } 256 k).status = 0) ∧
    (PFC_SquaredRMSIter
        { sum := 0, samples := 0, sampleLimit := 1, sqrOutput := 0,
          status := 0, peak := 0 } 256 2).status = 1 ∧
    (PFC_SquaredRMSIter
        { sum := 0, samples := 0, sampleLimit := 1, sqrOutput := 0,
          status := 0, peak := 0 } 256 2).sqrOutput =
      wrap16 (divsd (((1 + 1 : Nat) : Int) * wrap16 (asr15 ((256 : Int) * 256)))
        (Int.ofNat 1)) ∧
    (PFC_SquaredRMSIter
        { sum := 0, samples := 0, sampleLimit := 1, sqrOutput := 0,
          status := 0, peak := 0 } 256 2).sum = 0 ∧
    (PFC_SquaredRMSIter
        { sum := 0, samples := 0, sampleLimit := 1, sqrOutput := 0,
          status := 0, peak := 0 } 256 2).samples = 0) :=
  c5_meansquare_amended
    { sum := 0, samples := 0, sampleLimit := 1, sqrOutput := 0,
      status := 0, peak := 0 } 256 1
    (by decide) (by decide) (by decide) (by decide) (by decide) (by decide)

/-- A concrete parameter valuation used by the witness theorems. -/
def pW : Params :=
  { PFC_MIN_DUTY := 10, PFC_MAX_DUTY := 1000, PFC_LOOPTIME_TCY := 2000,
    KI_I_INTGRAL_OUT_MAX := 5000, PFC_OUPUT_VOLTAGE_REFERENCE := 10,
    RAMP_COUNT := 4, RAMP_RATE := 2, VOLTAGE_LOOP_EXE_RATE := 3,
    KI_V := 8, KMUL := 100, PFC_MIN_CURRENTREF_PEAK_Q15 := -99999,
    PFC_OUTPUT_OVER_VOLTAGE_LIMIT := 100000,
    PFC_INPUT_UNDER_VOLTAGE_LIMIT_LO := -100000,
    PFC_INPUT_UNDER_VOLTAGE_LIMIT_HI := 50,
    PFC_INPUT_OVER_VOLTAGE_LIMIT_LO := 40,
    PFC_INPUT_OVER_VOLTAGE_LIMIT_HI := 100000,
    PFC_RMS_SQUARE_COUNTMAX := 4, PFC_AVG_SCALER := 2,
    PFC_INPUT_FREQUENCY_COUNTER := 3,
    KP_I := 1, KI_I := 1, KP_I_SCALE := 0, KI_I_SCALE := 0,
    KP_V := 1, KP_V_SCALE := 0, KI_V_SCALE := 0 }

/-- A concrete quiescent per-cycle input used by the witness theorems. -/
def inpW : PFC_INPUT :=
  { vdc := 0, vac := 0, iL := 0, offsetReady := false, offsetVal := 0 }

/-- C1: for every value of the current-loop PI output, the duty produced
by `PFC_CurrentControlLoop` lies in `[PFC_MIN_DUTY, PFC_MAX_DUTY]`, and
whenever the scaled PI output exceeds `PFC_MAX_DUTY` the current-loop
integral accumulator is forced to `KI_I_INTGRAL_OUT_MAX` in the same
invocation. -/
theorem c1_duty_clamp_antiwindup (p : Params)
    (h : p.PFC_MIN_DUTY ≤ p.PFC_MAX_DUTY) (s : PFC_T) :
    (p.PFC_MIN_DUTY ≤ ((PFC_CurrentControlLoop p s).1).duty ∧
      ((PFC_CurrentControlLoop p s).1).duty ≤ p.PFC_MAX_DUTY) ∧
    (toU16 (asr15 (((PFC_CurrentControlLoop p s).1).piCurrent.output *
        p.PFC_LOOPTIME_TCY)) > p.PFC_MAX_DUTY →
      ((PFC_CurrentControlLoop p s).1).piCurrent.integralOut =
        p.KI_I_INTGRAL_OUT_MAX) := by
  unfold PFC_CurrentControlLoop
  dsimp only
  split_ifs <;> dsimp only at * <;> refine ⟨⟨?_, ?_⟩, fun hgt => ?_⟩
  all_goals omega

/-- C1 witness: instantiation at the concrete parameters `pW` and the
zero-initialised context. -/
theorem c1_witness :
    pW.PFC_MIN_DUTY ≤ pW.PFC_MAX_DUTY ∧
    ((pW.PFC_MIN_DUTY ≤ ((PFC_CurrentControlLoop pW zeroPFC).1).duty ∧
      ((PFC_CurrentControlLoop pW zeroPFC).1).duty ≤ pW.PFC_MAX_DUTY) ∧
    (toU16 (asr15 (((PFC_CurrentControlLoop pW zeroPFC).1).piCurrent.output *
        pW.PFC_LOOPTIME_TCY)) > pW.PFC_MAX_DUTY →
      ((PFC_CurrentControlLoop pW zeroPFC).1).piCurrent.integralOut =
        pW.KI_I_INTGRAL_OUT_MAX)) :=
  ⟨by decide, c1_duty_clamp_antiwindup pW (by decide) zeroPFC⟩

/-- C10: whenever the wrapped difference `vac - offsetVac` is `-32768`,
the full-wave rectifier negates it back to `-32768`, so its output is
negative. -/
theorem c10_rectifier_negative (pSignal : PFC_MEASURE_VOLTAGE_T)
    (h : wrap16 (pSignal.vac - pSignal.offsetVac) = -32768) :
    PFC_SignalRectification pSignal = -32768 ∧
    PFC_SignalRectification pSignal < 0 := by
  unfold PFC_SignalRectification
  rw [h]
  norm_num
  decide

/-- A context sitting fault-free in `PFC_CTRL_RUN` with the soft-start
reference at 9, one ramp step below the target 10 of `pW`, and filter
windows too long to complete during the test. -/
def c4Start : PFC_T :=
  { zeroPFC with
      state := PFC_CTRL_RUN,
      piVoltage := { zeroPFC.piVoltage with reference := 9, maxOutput := 32767 },
      piCurrent := { zeroPFC.piCurrent with maxOutput := 32767 },
      vdcAVG := { zeroPFC.vdcAVG with sampleLimit := 100 },
      vacAVG := { zeroPFC.vacAVG with sampleLimit := 100 },
      vacRMS := { zeroPFC.vacRMS with sampleLimit := 100 } }

/-- C4 counterexample: with target 10 and `RAMP_COUNT = 4`, two
consecutive fault-free `PFC_CTRL_RUN` cycles take the soft-start
reference from 9 to 13 (overshooting the target) and then back down to
10, so the reference neither increases monotonically nor holds exactly
at the target from the cycle it first reaches it. -/
theorem c4_counterexample :
    c4Start.state = PFC_CTRL_RUN ∧
    c4Start.faultStatus = PFC_FAULT_NONE ∧
    c4Start.piVoltage.reference = 9 ∧
    pW.PFC_OUPUT_VOLTAGE_REFERENCE = 10 ∧
    (PFC_StateMachine pW inpW c4Start).1.state = PFC_CTRL_RUN ∧
    (PFC_StateMachine pW inpW c4Start).1.faultStatus = PFC_FAULT_NONE ∧
    (PFC_StateMachine pW inpW c4Start).1.piVoltage.reference = 13 ∧
    (PFC_StateMachine pW inpW
        (PFC_StateMachine pW inpW c4Start).1).1.piVoltage.reference = 10 ∧
    (PFC_StateMachine pW inpW
        (PFC_StateMachine pW inpW c4Start).1).1.piVoltage.reference <
      (PFC_StateMachine pW inpW c4Start).1.piVoltage.reference := by
  decide

/-- C4 amended: per fault-free soft-start cycle, while the reference is
strictly below the target it either rises by exactly `RAMP_COUNT`
(reloading the step counter with `RAMP_RATE`) when the counter is 0, or
is held while the counter decrements; once the reference is at or above
the target it is set exactly to the target, so a reference that overshot
the target (or was seeded above it) decreases to it. -/
theorem c4_softstart_amended (p : Params) (s : PFC_T)
    (hRC : 0 < p.RAMP_COUNT)
    (hNoOv : s.piVoltage.reference + p.RAMP_COUNT ≤ 32767)
    (hLo : -32768 ≤ s.piVoltage.reference) :
    (s.piVoltage.reference < p.PFC_OUPUT_VOLTAGE_REFERENCE →
      (s.rampRate = 0 →
        (PFC_SoftStart p s).piVoltage.reference =
          s.piVoltage.reference + p.RAMP_COUNT ∧
        (PFC_SoftStart p s).rampRate = p.RAMP_RATE ∧
        s.piVoltage.reference < (PFC_SoftStart p s).piVoltage.reference) ∧
      (s.rampRate ≠ 0 →
        (PFC_SoftStart p s).piVoltage.reference = s.piVoltage.reference ∧
        (PFC_SoftStart p s).rampRate = s.rampRate - 1)) ∧
    (p.PFC_OUPUT_VOLTAGE_REFERENCE ≤ s.piVoltage.reference →
      (PFC_SoftStart p s).piVoltage.reference =
        p.PFC_OUPUT_VOLTAGE_REFERENCE) := by
  unfold PFC_SoftStart
  have hw : wrap16 (s.piVoltage.reference + p.RAMP_COUNT) =
      s.piVoltage.reference + p.RAMP_COUNT :=
    wrap16_eq_self (by omega) hNoOv
  split_ifs with h1 h2 <;> dsimp only <;>
    refine ⟨fun hlt => ⟨fun hz => ?_, fun hnz => ?_⟩, fun hge => ?_⟩ <;>
    first
      | (exact ⟨hw, rfl, by omega⟩)
      | rfl
      | exact ⟨rfl, rfl⟩
      | omega

/-- C4 amended witness: instantiation at `pW` and the overshot context
(reference 13, target 10). -/
theorem c4_amended_witness :
    (0 < pW.RAMP_COUNT ∧
      c4Start.piVoltage.reference + pW.RAMP_COUNT ≤ 32767 ∧
      -32768 ≤ c4Start.piVoltage.reference) ∧
    ((c4Start.piVoltage.reference < pW.PFC_OUPUT_VOLTAGE_REFERENCE →
      (c4Start.rampRate = 0 →
        (PFC_SoftStart pW c4Start).piVoltage.reference =
          c4Start.piVoltage.reference + pW.RAMP_COUNT ∧
        (PFC_SoftStart pW c4Start).rampRate = pW.RAMP_RATE ∧
        c4Start.piVoltage.reference <
          (PFC_SoftStart pW c4Start).piVoltage.reference) ∧
      (c4Start.rampRate ≠ 0 →
        (PFC_SoftStart pW c4Start).piVoltage.reference =
          c4Start.piVoltage.reference ∧
        (PFC_SoftStart pW c4Start).rampRate = c4Start.rampRate - 1)) ∧
    (pW.PFC_OUPUT_VOLTAGE_REFERENCE ≤ c4Start.piVoltage.reference →
      (PFC_SoftStart pW c4Start).piVoltage.reference =
        pW.PFC_OUPUT_VOLTAGE_REFERENCE)) :=
  ⟨⟨by decide, by decide, by decide⟩,
   c4_softstart_amended pW c4Start (by decide) (by decide) (by decide)⟩

/-- C7 counterexample: with `sampleLimit = 2`, the second call completes
a window and sets the status flag; the third call does not complete a
window, yet the status flag is still 1 afterwards — it is sticky, not a
one-shot pulse. -/
theorem c7_counterexample :
    (PFC_AverageIter
        { sum := 0, samples := 0, sampleLimit := 2, output := 0,
          status := 0, scaler := 0 } 5 2).status = 1 ∧
    (PFC_AverageIter
        { sum := 0, samples := 0, sampleLimit := 2, output := 0,
          status := 0, scaler := 0 } 5 2).samples = 0 ∧
    (PFC_AverageIter
        { sum := 0, samples := 0, sampleLimit := 2, output := 0,
          status := 0, scaler := 0 } 5 3).samples = 1 ∧
    (PFC_AverageIter
        { sum := 0, samples := 0, sampleLimit := 2, output := 0,
          status := 0, scaler := 0 } 5 3).status = 1 := by
  decide

/-- C7 amended: the ready status of `PFC_Average` is set on the call
that completes a window and is sticky: the filter itself never clears
it, so a non-completing call leaves it unchanged (in particular at 1
after any completed window) until an external reset; `PFC_ResetParams`
clears the Vdc-average and RMS status flags but not the Vac-average
one. -/
theorem c7_status_sticky (d : PFC_AVG_T) (x : Int) (s : PFC_T) :
    (d.status = 1 → (PFC_Average d x).1.status = 1) ∧
    ((PFC_Average d x).1.status =
      if (d.samples + 1) % 65536 ≥ d.sampleLimit then 1 else d.status) ∧
    (PFC_ResetParams s).vdcAVG.status = 0 ∧
    (PFC_ResetParams s).vacRMS.status = 0 ∧
    (PFC_ResetParams s).vacAVG.status = s.vacAVG.status := by
  unfold PFC_Average PFC_ResetParams
  dsimp only
  split_ifs <;> simp_all

/-- C7 amended witness: instantiation at a just-completed filter state. -/
theorem c7_witness :
    ({ sum := 0, samples := 0, sampleLimit := 2, output := 5,
       status := 1, scaler := 0 } : PFC_AVG_T).status = 1 ∧
    (PFC_Average
      { sum := 0, samples := 0, sampleLimit := 2, output := 5,
        status := 1, scaler := 0 } 5).1.status = 1 :=
  ⟨by decide,
   (c7_status_sticky
      { sum := 0, samples := 0, sampleLimit := 2, output := 5,
        status := 1, scaler := 0 } 5 zeroPFC).1 (by decide)⟩

/-- C10 witness: the input pair `vac = -1`, `offsetVac = 32767` realises
the wrap and yields a negative rectified output. -/
theorem c10_witness :
    wrap16 ((-1 : Int) - 32767) = -32768 ∧
    PFC_SignalRectification { vdc := 0, vac := -1, offsetVac := 32767 }
      = -32768 ∧
    PFC_SignalRectification { vdc := 0, vac := -1, offsetVac := 32767 }
      < 0 :=
  ⟨by decide,
   c10_rectifier_negative { vdc := 0, vac := -1, offsetVac := 32767 }
     (by decide)⟩

theorem land_clear_uv (fs : Nat) : (fs &&& 65533) &&& 2 = 0 := by
  rw [Nat.and_assoc, (by decide : (65533 &&& 2 : Nat) = 0), Nat.and_zero]

theorem land_keep_uv (fs : Nat) : (fs &&& 65531) &&& 2 = fs &&& 2 := by
  rw [Nat.and_assoc, (by decide : (65531 &&& 2 : Nat) = 2)]

theorem land_keep_ov (fs : Nat) : (fs &&& 65533) &&& 4 = fs &&& 4 := by
  rw [Nat.and_assoc, (by decide : (65533 &&& 4 : Nat) = 4)]

theorem land_clear_ov (fs : Nat) : (fs &&& 65531) &&& 4 = 0 := by
  rw [Nat.and_assoc, (by decide : (65531 &&& 4 : Nat) = 0), Nat.and_zero]

/-- Behaviour of one `PFC_FAULT`-state cycle body: duty forced to 0, the
two input-fault bits cleared exactly by their hysteresis conditions, and
the recovery actions fired exactly when the bitmask ends up clear. -/
theorem faultBranch_spec (p : Params) (t : PFC_T) :
    (PFC_FaultBranch p t).duty = 0 ∧
    ((PFC_FaultBranch p t).faultStatus &&& PFC_FAULT_IP_UV =
      if t.vacRMS.sqrOutput ≥ p.PFC_INPUT_UNDER_VOLTAGE_LIMIT_HI then 0
      else t.faultStatus &&& PFC_FAULT_IP_UV) ∧
    ((PFC_FaultBranch p t).faultStatus &&& PFC_FAULT_IP_OV =
      if t.vacRMS.sqrOutput < p.PFC_INPUT_OVER_VOLTAGE_LIMIT_LO then 0
      else t.faultStatus &&& PFC_FAULT_IP_OV) ∧
    ((PFC_FaultBranch p t).faultStatus = PFC_FAULT_NONE →
      (PFC_FaultBranch p t).piVoltage.integralOut = 0 ∧
      (PFC_FaultBranch p t).piCurrent.integralOut = 0 ∧
      (PFC_FaultBranch p t).piVoltage.reference = t.vdcAVG.output ∧
      (PFC_FaultBranch p t).state = PFC_CTRL_RUN ∧
      (PFC_FaultBranch p t).pwmEnabled = true) ∧
    ((PFC_FaultBranch p t).faultStatus ≠ PFC_FAULT_NONE →
      (PFC_FaultBranch p t).state = t.state ∧
      (PFC_FaultBranch p t).pwmEnabled = false) := by
  unfold PFC_FaultBranch
  simp only [PFC_FAULT_IP_UV, PFC_FAULT_IP_OV, PFC_FAULT_NONE,
    (by decide : (65535 ^^^ 2 : Nat) = 65533),
    (by decide : (65535 ^^^ 4 : Nat) = 65531)]
  split_ifs with h1 h2 h3 <;>
    refine ⟨rfl, ?_, ?_, fun hz => ?_, fun hnz => ?_⟩ <;>
    first
      | rfl
      | exact ⟨rfl, rfl, rfl, rfl, rfl⟩
      | exact ⟨rfl, rfl⟩
      | exact absurd (by assumption) hnz
      | exact absurd hz (by assumption)
      | rw [land_keep_uv, land_clear_uv]
      | rw [land_clear_uv]
      | rw [land_keep_uv]
      | rw [land_clear_ov]
      | rw [land_keep_ov, land_clear_ov]
      | rw [land_keep_ov]

theorem conditioning_state (s : PFC_T) :
    (PFC_SignalConditioning s).1.state = s.state := rfl

theorem conditioning_faultStatus (s : PFC_T) :
    (PFC_SignalConditioning s).1.faultStatus = s.faultStatus := rfl

/-- In the `PFC_FAULT` state, the state machine cycle is the signal
conditioning followed by the fault branch. -/
theorem stateMachine_fault_eq (p : Params) (inp : PFC_INPUT) (s : PFC_T)
    (h : s.state = PFC_FAULT) :
    (PFC_StateMachine p inp s).1 =
      PFC_FaultBranch p (PFC_SignalConditioning s).1 := by
  unfold PFC_StateMachine
  simp only [conditioning_state, h, PFC_INIT, PFC_OFFSET_MEAS,
    PFC_WAIT_1CYCLE, PFC_CTRL_RUN, PFC_FAULT]
  norm_num

/-- C2: in the `PFC_FAULT` state every cycle forces duty to 0 and keeps
the power stage disabled while any fault bit remains; the input
under-voltage bit clears exactly when the (current-cycle) RMS-square
reaches the recovery-high threshold, the input over-voltage bit clears
exactly when it falls below the recovery-low threshold, and on the cycle
the bitmask becomes fully clear both PI integrals are zeroed, the
voltage reference is reseeded from the current DC-bus average, the state
moves to `PFC_CTRL_RUN` and the power stage is re-enabled. -/
theorem c2_fault_recovery (p : Params) (inp : PFC_INPUT) (s : PFC_T)
    (h : s.state = PFC_FAULT) :
    (PFC_StateMachine p inp s).1.duty = 0 ∧
    ((PFC_StateMachine p inp s).1.faultStatus &&& PFC_FAULT_IP_UV =
      if (PFC_SignalConditioning s).1.vacRMS.sqrOutput ≥
          p.PFC_INPUT_UNDER_VOLTAGE_LIMIT_HI then 0
      else s.faultStatus &&& PFC_FAULT_IP_UV) ∧
    ((PFC_StateMachine p inp s).1.faultStatus &&& PFC_FAULT_IP_OV =
      if (PFC_SignalConditioning s).1.vacRMS.sqrOutput <
          p.PFC_INPUT_OVER_VOLTAGE_LIMIT_LO then 0
      else s.faultStatus &&& PFC_FAULT_IP_OV) ∧
    ((PFC_StateMachine p inp s).1.faultStatus = PFC_FAULT_NONE →
      (PFC_StateMachine p inp s).1.piVoltage.integralOut = 0 ∧
      (PFC_StateMachine p inp s).1.piCurrent.integralOut = 0 ∧
      (PFC_StateMachine p inp s).1.piVoltage.reference =
        (PFC_SignalConditioning s).1.vdcAVG.output ∧
      (PFC_StateMachine p inp s).1.state = PFC_CTRL_RUN ∧
      (PFC_StateMachine p inp s).1.pwmEnabled = true) ∧
    ((PFC_StateMachine p inp s).1.faultStatus ≠ PFC_FAULT_NONE →
      (PFC_StateMachine p inp s).1.state = PFC_FAULT ∧
      (PFC_StateMachine p inp s).1.pwmEnabled = false) := by
  rw [stateMachine_fault_eq p inp s h]
  obtain ⟨hd, huv, hov, hrec, hstay⟩ :=
    faultBranch_spec p (PFC_SignalConditioning s).1
  refine ⟨hd, ?_, ?_, hrec, fun hnz => ?_⟩
  · rw [huv, conditioning_faultStatus]
  · rw [hov, conditioning_faultStatus]
  · obtain ⟨hst, hpw⟩ := hstay hnz
    rw [hst, conditioning_state, h]
    exact ⟨rfl, hpw⟩

/-- A context sitting in the `PFC_FAULT` state with only the input
under-voltage bit set and the RMS-square reading already back above the
recovery-high threshold of `pW`. -/
def c2Fault : PFC_T :=
  { zeroPFC with
      state := PFC_FAULT,
      faultStatus := PFC_FAULT_IP_UV,
      duty := 77,
      vdcAVG := { zeroPFC.vdcAVG with sampleLimit := 100, output := 5 },
      vacAVG := { zeroPFC.vacAVG with sampleLimit := 100 },
      vacRMS := { zeroPFC.vacRMS with sampleLimit := 100, sqrOutput := 60 },
      piVoltage := { zeroPFC.piVoltage with integralOut := 9 },
      piCurrent := { zeroPFC.piCurrent with integralOut := 9 } }

/-- C2 witness: instantiation at `pW` and a recovering fault context. -/
theorem c2_witness :
    c2Fault.state = PFC_FAULT ∧
    ((PFC_StateMachine pW inpW c2Fault).1.duty = 0 ∧
    ((PFC_StateMachine pW inpW c2Fault).1.faultStatus &&& PFC_FAULT_IP_UV =
      if (PFC_SignalConditioning c2Fault).1.vacRMS.sqrOutput ≥
          pW.PFC_INPUT_UNDER_VOLTAGE_LIMIT_HI then 0
      else c2Fault.faultStatus &&& PFC_FAULT_IP_UV) ∧
    ((PFC_StateMachine pW inpW c2Fault).1.faultStatus &&& PFC_FAULT_IP_OV =
      if (PFC_SignalConditioning c2Fault).1.vacRMS.sqrOutput <
          pW.PFC_INPUT_OVER_VOLTAGE_LIMIT_LO then 0
      else c2Fault.faultStatus &&& PFC_FAULT_IP_OV) ∧
    ((PFC_StateMachine pW inpW c2Fault).1.faultStatus = PFC_FAULT_NONE →
      (PFC_StateMachine pW inpW c2Fault).1.piVoltage.integralOut = 0 ∧
      (PFC_StateMachine pW inpW c2Fault).1.piCurrent.integralOut = 0 ∧
      (PFC_StateMachine pW inpW c2Fault).1.piVoltage.reference =
        (PFC_SignalConditioning c2Fault).1.vdcAVG.output ∧
      (PFC_StateMachine pW inpW c2Fault).1.state = PFC_CTRL_RUN ∧
      (PFC_StateMachine pW inpW c2Fault).1.pwmEnabled = true) ∧
    ((PFC_StateMachine pW inpW c2Fault).1.faultStatus ≠ PFC_FAULT_NONE →
      (PFC_StateMachine pW inpW c2Fault).1.state = PFC_FAULT ∧
      (PFC_StateMachine pW inpW c2Fault).1.pwmEnabled = false)) :=
  ⟨by decide, c2_fault_recovery pW inpW c2Fault (by decide)⟩

theorem conditioning_vdc (s : PFC_T) :
    (PFC_SignalConditioning s).1.pfcVoltage.vdc = s.pfcVoltage.vdc := rfl

theorem conditioning_piCurrent (s : PFC_T) :
    (PFC_SignalConditioning s).1.piCurrent = s.piCurrent := rfl

theorem conditioning_boost (s : PFC_T) :
    (PFC_SignalConditioning s).1.boostDutyRatio = s.boostDutyRatio := rfl

theorem conditioning_sce (s : PFC_T) :
    (PFC_SignalConditioning s).1.sampleCorrectionEnable =
      s.sampleCorrectionEnable := rfl

/-- Fields left untouched by the soft-start ramp. -/
theorem softStart_frame (p : Params) (t : PFC_T) :
    (PFC_SoftStart p t).pfcVoltage = t.pfcVoltage ∧
    (PFC_SoftStart p t).piCurrent = t.piCurrent ∧
    (PFC_SoftStart p t).iL = t.iL ∧
    (PFC_SoftStart p t).boostDutyRatio = t.boostDutyRatio ∧
    (PFC_SoftStart p t).sampleCorrectionEnable = t.sampleCorrectionEnable ∧
    (PFC_SoftStart p t).faultStatus = t.faultStatus ∧
    (PFC_SoftStart p t).state = t.state ∧
    (PFC_SoftStart p t).currentReference = t.currentReference ∧
    (PFC_SoftStart p t).vacRMS = t.vacRMS ∧
    (PFC_SoftStart p t).vdcAVG = t.vdcAVG ∧
    (PFC_SoftStart p t).duty = t.duty ∧
    (PFC_SoftStart p t).pwmEnabled = t.pwmEnabled := by
  unfold PFC_SoftStart
  split_ifs <;> exact ⟨rfl, rfl, rfl, rfl, rfl, rfl, rfl, rfl, rfl, rfl,
    rfl, rfl⟩

/-- Fields left untouched by the current-reference generator. -/
theorem refGen_frame (p : Params) (t : PFC_T) :
    (PFC_CurrentRefGenerate p t).1.pfcVoltage = t.pfcVoltage ∧
    (PFC_CurrentRefGenerate p t).1.piCurrent = t.piCurrent ∧
    (PFC_CurrentRefGenerate p t).1.iL = t.iL ∧
    (PFC_CurrentRefGenerate p t).1.boostDutyRatio = t.boostDutyRatio ∧
    (PFC_CurrentRefGenerate p t).1.sampleCorrectionEnable =
      t.sampleCorrectionEnable ∧
    (PFC_CurrentRefGenerate p t).1.faultStatus = t.faultStatus ∧
    (PFC_CurrentRefGenerate p t).1.state = t.state ∧
    (PFC_CurrentRefGenerate p t).1.vacRMS = t.vacRMS ∧
    (PFC_CurrentRefGenerate p t).1.vdcAVG = t.vdcAVG ∧
    (PFC_CurrentRefGenerate p t).1.duty = t.duty ∧
    (PFC_CurrentRefGenerate p t).1.pwmEnabled = t.pwmEnabled := by
  unfold PFC_CurrentRefGenerate
  dsimp only
  split_ifs <;> exact ⟨rfl, rfl, rfl, rfl, rfl, rfl, rfl, rfl, rfl, rfl, rfl⟩

/-- Fields left untouched by the current control loop. -/
theorem ctrlLoop_frame (p : Params) (t : PFC_T) :
    (PFC_CurrentControlLoop p t).1.boostDutyRatio = t.boostDutyRatio ∧
    (PFC_CurrentControlLoop p t).1.faultStatus = t.faultStatus ∧
    (PFC_CurrentControlLoop p t).1.state = t.state ∧
    (PFC_CurrentControlLoop p t).1.pfcVoltage = t.pfcVoltage ∧
    (PFC_CurrentControlLoop p t).1.piVoltage = t.piVoltage ∧
    (PFC_CurrentControlLoop p t).1.pwmEnabled = t.pwmEnabled := by
  unfold PFC_CurrentControlLoop
  dsimp only
  split_ifs <;> exact ⟨rfl, rfl, rfl, rfl, rfl, rfl⟩

/-- The clamped current sample and the average current computed by the
current control loop. -/
theorem ctrlLoop_iL_avg (p : Params) (t : PFC_T) :
    (PFC_CurrentControlLoop p t).1.iL = (if t.iL < 0 then 1 else t.iL) ∧
    (PFC_CurrentControlLoop p t).1.averageCurrent =
      (if t.sampleCorrectionEnable = 1 then
        (PFC_CurrentSampleCorrection
          { t with iL := if t.iL < 0 then 1 else t.iL }).1
      else (if t.iL < 0 then 1 else t.iL)) := by
  unfold PFC_CurrentControlLoop
  dsimp only
  split_ifs <;> exact ⟨rfl, rfl⟩

/-- Model of `PFC_CurrentSampleCorrection` depends only on the measured current,
the previous current-PI output and the boost duty ratio. -/
theorem sampleCorrection_congr (t u : PFC_T)
    (h1 : t.iL = u.iL) (h2 : t.piCurrent.output = u.piCurrent.output)
    (h3 : t.boostDutyRatio = u.boostDutyRatio) :
    (PFC_CurrentSampleCorrection t).1 = (PFC_CurrentSampleCorrection u).1 := by
  unfold PFC_CurrentSampleCorrection
  rw [h1, h2, h3]

/-- In the `PFC_CTRL_RUN` state, the state machine cycle is the signal
conditioning followed by the run branch. -/
theorem stateMachine_ctrlrun_eq (p : Params) (inp : PFC_INPUT) (s : PFC_T)
    (h : s.state = PFC_CTRL_RUN) :
    (PFC_StateMachine p inp s).1 =
      (PFC_CtrlRunBranch p (PFC_SignalConditioning s).1).1 := by
  unfold PFC_StateMachine
  simp only [conditioning_state, h, PFC_INIT, PFC_OFFSET_MEAS,
    PFC_WAIT_1CYCLE, PFC_CTRL_RUN, PFC_FAULT]
  norm_num

/-- C9: in a fault-free `PFC_CTRL_RUN` cycle with `vdc ≤ 0`, the boost
duty ratio is left unchanged (the recomputation is guarded by
`vdc > 0`), and the sample correction in that same cycle therefore runs
on the stale previous-cycle ratio (the one stored in `s`). -/
theorem c9_stale_ratio (p : Params) (inp : PFC_INPUT) (s : PFC_T)
    (h : s.state = PFC_CTRL_RUN)
    (hvdc : s.pfcVoltage.vdc ≤ 0)
    (hfs : (PFC_FaultCheck p (PFC_SignalConditioning s).1).faultStatus =
      PFC_FAULT_NONE) :
    (PFC_StateMachine p inp s).1.boostDutyRatio = s.boostDutyRatio ∧
    (s.sampleCorrectionEnable = 1 →
      (PFC_StateMachine p inp s).1.averageCurrent =
        (PFC_CurrentSampleCorrection
          { s with iL := (PFC_StateMachine p inp s).1.iL }).1) := by
  rw [stateMachine_ctrlrun_eq p inp s h]
  unfold PFC_CtrlRunBranch
  dsimp only
  split_ifs <;>
    first
      | exact absurd hfs (by assumption)
      | (exfalso
         rename_i hpos _
         rw [(refGen_frame p _).1, (softStart_frame p _).1] at hpos
         exact absurd (show s.pfcVoltage.vdc > 0 from hpos) (by omega))
      | (dsimp only
         refine ⟨?_, fun hsce => ?_⟩
         · rw [(ctrlLoop_frame p _).1, (refGen_frame p _).2.2.2.1,
             (softStart_frame p _).2.2.2.1]
           rfl
         · rw [(ctrlLoop_iL_avg p _).2, (ctrlLoop_iL_avg p _).1]
           have hsce4 : (PFC_CurrentRefGenerate p (PFC_SoftStart p
               (PFC_FaultCheck p { (PFC_SignalConditioning s).1 with
                 iL := wrap16 ((PFC_SignalConditioning s).1.pfcCurrent.iL -
                   (PFC_SignalConditioning s).1.pfcCurrent.offset) }))).1.sampleCorrectionEnable
               = 1 := by
             rw [(refGen_frame p _).2.2.2.2.1, (softStart_frame p _).2.2.2.2.1]
             exact hsce
           rw [if_pos hsce4]
           apply sampleCorrection_congr
           · rfl
           · show (PFC_CurrentRefGenerate p _).1.piCurrent.output = _
             rw [(refGen_frame p _).2.1, (softStart_frame p _).2.1]
             rfl
           · show (PFC_CurrentRefGenerate p _).1.boostDutyRatio = _
             rw [(refGen_frame p _).2.2.2.1, (softStart_frame p _).2.2.2.1]
             rfl)

/-- A context in `PFC_CTRL_RUN` with `vdc = 0`, sample correction
enabled, and a nonzero stored boost duty ratio from a previous cycle. -/
def c9Run : PFC_T :=
  { zeroPFC with
      state := PFC_CTRL_RUN,
      sampleCorrectionEnable := 1,
      boostDutyRatio := 123,
      vdcAVG := { zeroPFC.vdcAVG with sampleLimit := 100 },
      vacAVG := { zeroPFC.vacAVG with sampleLimit := 100 },
      vacRMS := { zeroPFC.vacRMS with sampleLimit := 100 } }

/-- C9 witness: instantiation at `pW` and a `vdc = 0` run cycle. -/
theorem c9_witness :
    (c9Run.state = PFC_CTRL_RUN ∧ c9Run.pfcVoltage.vdc ≤ 0 ∧
      (PFC_FaultCheck pW (PFC_SignalConditioning c9Run).1).faultStatus =
        PFC_FAULT_NONE) ∧
    ((PFC_StateMachine pW inpW c9Run).1.boostDutyRatio =
      c9Run.boostDutyRatio ∧
    (c9Run.sampleCorrectionEnable = 1 →
      (PFC_StateMachine pW inpW c9Run).1.averageCurrent =
        (PFC_CurrentSampleCorrection
          { c9Run with iL := (PFC_StateMachine pW inpW c9Run).1.iL }).1)) :=
  ⟨⟨by decide, by decide, by decide⟩,
   c9_stale_ratio pW inpW c9Run (by decide) (by decide) (by decide)⟩

theorem average_divs (d : PFC_AVG_T) (x : Int) (hd : 0 < d.sampleLimit) :
    ∀ y ∈ (PFC_Average d x).2, 0 < y := by
  unfold PFC_Average
  dsimp only
  split_ifs <;> intro y hy
  · simp only [List.mem_singleton] at hy
    subst hy
    rw [Int.ofNat_eq_natCast]
    exact_mod_cast hd
  · simp at hy

theorem rms_divs (d : PFC_RMS_SQUARE_T) (x : Int) (hd : 0 < d.sampleLimit) :
    ∀ y ∈ (PFC_SquaredRMSCalculate d x).2, 0 < y := by
  unfold PFC_SquaredRMSCalculate
  dsimp only
  split_ifs <;> intro y hy
  · simp at hy
  · simp only [List.mem_singleton] at hy
    subst hy
    rw [Int.ofNat_eq_natCast]
    exact_mod_cast hd

theorem corr_divs (t : PFC_T) :
    ∀ y ∈ (PFC_CurrentSampleCorrection t).2, 0 < y := by
  unfold PFC_CurrentSampleCorrection
  dsimp only
  split_ifs with hb <;> intro y hy <;> simp_all

theorem ctrlLoop_divs (p : Params) (t : PFC_T) :
    ∀ y ∈ (PFC_CurrentControlLoop p t).2, 0 < y := by
  unfold PFC_CurrentControlLoop
  dsimp only
  split_ifs <;> intro y hy <;>
    first
      | exact corr_divs _ y hy
      | simp at hy

theorem refGen_divs (p : Params) (t : PFC_T) :
    ∀ y ∈ (PFC_CurrentRefGenerate p t).2, 0 < y := by
  unfold PFC_CurrentRefGenerate
  dsimp only
  split_ifs <;> intro y hy <;> simp_all

theorem conditioning_divs (s : PFC_T)
    (h1 : 0 < s.vdcAVG.sampleLimit) (h2 : 0 < s.vacAVG.sampleLimit)
    (h3 : 0 < s.vacRMS.sampleLimit) :
    ∀ y ∈ (PFC_SignalConditioning s).2, 0 < y := by
  unfold PFC_SignalConditioning
  dsimp only
  intro y hy
  rw [List.mem_append, List.mem_append] at hy
  rcases hy with (hy | hy) | hy
  · exact average_divs _ _ h1 y hy
  · exact average_divs _ _ h2 y hy
  · exact rms_divs _ _ h3 y hy

theorem ctrlRun_divs (p : Params) (t : PFC_T) :
    ∀ y ∈ (PFC_CtrlRunBranch p t).2, 0 < y := by
  unfold PFC_CtrlRunBranch
  dsimp only
  split_ifs <;> intro y hy <;>
    first
      | (rw [List.mem_append, List.mem_append] at hy
         rcases hy with (hy | hy) | hy
         · exact refGen_divs p _ y hy
         · first
             | (rw [List.mem_singleton] at hy
                subst hy
                assumption)
             | simp at hy
         · exact ctrlLoop_divs p _ y hy)
      | simp at hy

/-- C3: every division the control path performs in a cycle has a
positive divisor — the boost-ratio divide runs only under `vdc > 0`,
the reference normalisation only under `RMS-square > 0`, the sample
correction only under `boostDutyRatio > 0`, and the filter divides use
the (positive) configured window lengths — so no division-by-zero
branch is reachable. -/
theorem c3_division_guards (p : Params) (inp : PFC_INPUT) (s : PFC_T)
    (h1 : 0 < s.vdcAVG.sampleLimit) (h2 : 0 < s.vacAVG.sampleLimit)
    (h3 : 0 < s.vacRMS.sampleLimit) :
    ∀ y ∈ (PFC_StateMachine p inp s).2, 0 < y := by
  unfold PFC_StateMachine
  dsimp only
  split_ifs <;> intro y hy <;>
    first
      | exact conditioning_divs s h1 h2 h3 y hy
      | (rw [List.mem_append] at hy
         rcases hy with hy | hy
         · exact conditioning_divs s h1 h2 h3 y hy
         · exact ctrlRun_divs p _ y hy)

/-- A `PFC_CTRL_RUN` context in which all three guarded divisions
actually execute in one cycle (positive `vdc`, positive RMS-square,
positive stored boost ratio with sample correction on) and the filter
windows complete. -/
def c3Run : PFC_T :=
  { zeroPFC with
      state := PFC_CTRL_RUN,
      sampleCorrectionEnable := 1,
      boostDutyRatio := 5,
      pfcVoltage := { vdc := 50, vac := 3, offsetVac := 0 },
      vdcAVG := { zeroPFC.vdcAVG with sampleLimit := 1 },
      vacAVG := { zeroPFC.vacAVG with sampleLimit := 1 },
      vacRMS := { zeroPFC.vacRMS with sampleLimit := 1, sqrOutput := 10 } }

/-- C3 witness: instantiation at `pW` and a cycle that performs the
guarded divisions. -/
theorem c3_witness :
    (0 < c3Run.vdcAVG.sampleLimit ∧ 0 < c3Run.vacAVG.sampleLimit ∧
      0 < c3Run.vacRMS.sampleLimit) ∧
    (∀ y ∈ (PFC_StateMachine pW inpW c3Run).2, 0 < y) :=
  ⟨⟨by decide, by decide, by decide⟩,
   c3_division_guards pW inpW c3Run (by decide) (by decide) (by decide)⟩

/-- Starting from a clear bitmask, one `PFC_FaultCheck` invocation
produces exactly the bitwise union of the detected fault bits (the `+=`
accumulation cannot double-count a bit). -/
theorem faultCheck_from_none (p : Params) (t : PFC_T)
    (h : t.faultStatus = PFC_FAULT_NONE) :
    (PFC_FaultCheck p t).faultStatus =
      ((if t.vdcAVG.output ≥ p.PFC_OUTPUT_OVER_VOLTAGE_LIMIT then
          PFC_FAULT_OP_OV else 0) |||
       (if t.vacRMS.sqrOutput < p.PFC_INPUT_UNDER_VOLTAGE_LIMIT_LO then
          PFC_FAULT_IP_UV else 0) |||
       (if t.vacRMS.sqrOutput ≥ p.PFC_INPUT_OVER_VOLTAGE_LIMIT_HI then
          PFC_FAULT_IP_OV else 0)) := by
  unfold PFC_FaultCheck
  dsimp only
  rw [h]
  simp only [PFC_FAULT_NONE, PFC_FAULT_OP_OV, PFC_FAULT_IP_UV,
    PFC_FAULT_IP_OV]
  split_ifs <;> decide

theorem faultCheck_le (p : Params) (t : PFC_T)
    (h : t.faultStatus = PFC_FAULT_NONE) :
    (PFC_FaultCheck p t).faultStatus ≤ 7 := by
  unfold PFC_FaultCheck
  dsimp only
  rw [h]
  simp only [PFC_FAULT_NONE, PFC_FAULT_OP_OV, PFC_FAULT_IP_UV,
    PFC_FAULT_IP_OV]
  split_ifs <;> decide

theorem faultBranch_fs_le (p : Params) (t : PFC_T) (h : t.faultStatus ≤ 7) :
    (PFC_FaultBranch p t).faultStatus ≤ 7 := by
  unfold PFC_FaultBranch
  dsimp only
  split_ifs <;>
    first
      | exact h
      | exact le_trans Nat.and_le_left h
      | exact le_trans Nat.and_le_left (le_trans Nat.and_le_left h)

theorem offsetBranch_frame (inp : PFC_INPUT) (t : PFC_T) :
    (PFC_OffsetMeasBranch inp t).faultStatus = t.faultStatus ∧
    ((PFC_OffsetMeasBranch inp t).state = t.state ∨
      (PFC_OffsetMeasBranch inp t).state = PFC_WAIT_1CYCLE) := by
  unfold PFC_OffsetMeasBranch
  dsimp only
  split_ifs <;> first | exact ⟨rfl, Or.inr rfl⟩ | exact ⟨rfl, Or.inl rfl⟩

theorem waitBranch_frame (t : PFC_T) :
    (PFC_WaitBranch t).faultStatus = t.faultStatus ∧
    ((PFC_WaitBranch t).state = t.state ∨
      (PFC_WaitBranch t).state = PFC_CTRL_RUN) := by
  unfold PFC_WaitBranch
  split_ifs <;> first | exact ⟨rfl, Or.inr rfl⟩ | exact ⟨rfl, Or.inl rfl⟩

/-- One fault-free-entry `PFC_CTRL_RUN` cycle either stays in the run
state with a clear bitmask, or moves to `PFC_FAULT` with a bitmask that
is a (nonempty) union of the three fault bits. -/
theorem ctrlRunBranch_inv (p : Params) (t : PFC_T)
    (h : t.faultStatus = PFC_FAULT_NONE) :
    ((PFC_CtrlRunBranch p t).1.state = t.state ∧
      (PFC_CtrlRunBranch p t).1.faultStatus = PFC_FAULT_NONE) ∨
    ((PFC_CtrlRunBranch p t).1.state = PFC_FAULT ∧
      (PFC_CtrlRunBranch p t).1.faultStatus ≤ 7) := by
  unfold PFC_CtrlRunBranch
  dsimp only
  split_ifs with hok <;>
    first
      | (left
         constructor
         · rw [(ctrlLoop_frame p _).2.2.1, (refGen_frame p _).2.2.2.2.2.2.1,
             (softStart_frame p _).2.2.2.2.2.2.1]
           rfl
         · rw [(ctrlLoop_frame p _).2.1, (refGen_frame p _).2.2.2.2.2.1,
             (softStart_frame p _).2.2.2.2.2.1]
           exact hok)
      | (right
         dsimp only
         refine ⟨rfl, faultCheck_le p _ ?_⟩
         exact h)

/-- The state-machine body preserves the bitmask invariant: outside
`PFC_FAULT` the bitmask is clear, and the bitmask is always a union of
the three (disjoint power-of-two) fault bits, i.e. at most 7. -/
theorem inv_preserved_sm (p : Params) (inp : PFC_INPUT) (s : PFC_T)
    (h1 : s.state ≠ PFC_FAULT → s.faultStatus = PFC_FAULT_NONE)
    (h2 : s.faultStatus ≤ 7) :
    ((PFC_StateMachine p inp s).1.state ≠ PFC_FAULT →
      (PFC_StateMachine p inp s).1.faultStatus = PFC_FAULT_NONE) ∧
    (PFC_StateMachine p inp s).1.faultStatus ≤ 7 := by
  unfold PFC_StateMachine
  dsimp only
  split_ifs with hI hO hW hR hF
  · refine ⟨fun _ => ?_, ?_⟩
    · exact h1 (by rw [show s.state = PFC_INIT from hI]; decide)
    · exact h2
  · obtain ⟨hfs, _⟩ := offsetBranch_frame inp (PFC_SignalConditioning s).1
    refine ⟨fun _ => ?_, ?_⟩
    · rw [hfs]
      exact h1 (by rw [show s.state = PFC_OFFSET_MEAS from hO]; decide)
    · rw [hfs]
      exact h2
  · obtain ⟨hfs, _⟩ := waitBranch_frame (PFC_SignalConditioning s).1
    refine ⟨fun _ => ?_, ?_⟩
    · rw [hfs]
      exact h1 (by rw [show s.state = PFC_WAIT_1CYCLE from hW]; decide)
    · rw [hfs]
      exact h2
  · have hfs0 : (PFC_SignalConditioning s).1.faultStatus = PFC_FAULT_NONE :=
      h1 (by rw [show s.state = PFC_CTRL_RUN from hR]; decide)
    rcases ctrlRunBranch_inv p (PFC_SignalConditioning s).1 hfs0 with
      ⟨hst, hfs⟩ | ⟨hst, hfs⟩
    · refine ⟨fun _ => hfs, ?_⟩
      rw [hfs]
      decide
    · exact ⟨fun hne => absurd hst hne, hfs⟩
  · refine ⟨fun hne => ?_, faultBranch_fs_le p (PFC_SignalConditioning s).1 h2⟩
    by_cases hz : (PFC_FaultBranch p (PFC_SignalConditioning s).1).faultStatus
        = PFC_FAULT_NONE
    · exact hz
    · obtain ⟨hst, _⟩ :=
        (faultBranch_spec p (PFC_SignalConditioning s).1).2.2.2.2 hz
      exact absurd (hst.trans hF) hne
  · exact ⟨fun hne => h1 hne, h2⟩

/-- The full interrupt step preserves the bitmask invariant. -/
theorem inv_preserved (p : Params) (inp : PFC_INPUT) (s : PFC_T)
    (h1 : s.state ≠ PFC_FAULT → s.faultStatus = PFC_FAULT_NONE)
    (h2 : s.faultStatus ≤ 7) :
    ((PFC_ADCInterrupt p inp s).1.state ≠ PFC_FAULT →
      (PFC_ADCInterrupt p inp s).1.faultStatus = PFC_FAULT_NONE) ∧
    (PFC_ADCInterrupt p inp s).1.faultStatus ≤ 7 := by
  unfold PFC_ADCInterrupt
  exact inv_preserved_sm p inp _ (fun hne => h1 hne) h2

/-- The bitmask invariant holds in every reachable context. -/
theorem inv_reachable (p : Params) (s : PFC_T) (hr : Reachable p s) :
    (s.state ≠ PFC_FAULT → s.faultStatus = PFC_FAULT_NONE) ∧
    s.faultStatus ≤ 7 := by
  induction hr with
  | init => exact ⟨fun _ => rfl, Nat.zero_le 7⟩
  | step t inp _ ih => exact inv_preserved p inp t ih.1 ih.2

/-- C8: in every reachable context, whenever the machine is outside the
`PFC_FAULT` state — in particular whenever `PFC_CTRL_RUN` invokes
`PFC_FaultCheck` — the bitmask is exactly `PFC_FAULT_NONE`, the bitmask
is always exactly the arithmetic sum of its (disjoint) fault bits, i.e.
a bitwise union with no double counting, and a `PFC_FaultCheck` run from
a clear bitmask returns exactly the bitwise union of the detected
bits. -/
theorem c8_faultcheck_invariant (p : Params) (s : PFC_T)
    (hr : Reachable p s) :
    (s.state ≠ PFC_FAULT → s.faultStatus = PFC_FAULT_NONE) ∧
    s.faultStatus = (s.faultStatus &&& PFC_FAULT_OP_OV) +
      (s.faultStatus &&& PFC_FAULT_IP_UV) +
      (s.faultStatus &&& PFC_FAULT_IP_OV) ∧
    (∀ t : PFC_T, t.faultStatus = PFC_FAULT_NONE →
      (PFC_FaultCheck p t).faultStatus =
        ((if t.vdcAVG.output ≥ p.PFC_OUTPUT_OVER_VOLTAGE_LIMIT then
            PFC_FAULT_OP_OV else 0) |||
         (if t.vacRMS.sqrOutput < p.PFC_INPUT_UNDER_VOLTAGE_LIMIT_LO then
            PFC_FAULT_IP_UV else 0) |||
         (if t.vacRMS.sqrOutput ≥ p.PFC_INPUT_OVER_VOLTAGE_LIMIT_HI then
            PFC_FAULT_IP_OV else 0))) := by
  obtain ⟨hclear, hle⟩ := inv_reachable p s hr
  refine ⟨hclear, ?_, fun t ht => faultCheck_from_none p t ht⟩
  have hsplit : ∀ fs : Nat, fs < 8 →
      fs = (fs &&& PFC_FAULT_OP_OV) + (fs &&& PFC_FAULT_IP_UV) +
        (fs &&& PFC_FAULT_IP_OV) := by decide
  exact hsplit s.faultStatus (by omega)

/-- C8 witness: instantiation at `pW` and the initial context. -/
theorem c8_witness :
    (((initState pW).state ≠ PFC_FAULT →
      (initState pW).faultStatus = PFC_FAULT_NONE) ∧
    (initState pW).faultStatus = ((initState pW).faultStatus &&& PFC_FAULT_OP_OV) +
      ((initState pW).faultStatus &&& PFC_FAULT_IP_UV) +
      ((initState pW).faultStatus &&& PFC_FAULT_IP_OV) ∧
    (∀ t : PFC_T, t.faultStatus = PFC_FAULT_NONE →
      (PFC_FaultCheck pW t).faultStatus =
        ((if t.vdcAVG.output ≥ pW.PFC_OUTPUT_OVER_VOLTAGE_LIMIT then
            PFC_FAULT_OP_OV else 0) |||
         (if t.vacRMS.sqrOutput < pW.PFC_INPUT_UNDER_VOLTAGE_LIMIT_LO then
            PFC_FAULT_IP_UV else 0) |||
         (if t.vacRMS.sqrOutput ≥ pW.PFC_INPUT_OVER_VOLTAGE_LIMIT_HI then
            PFC_FAULT_IP_OV else 0)))) :=
  c8_faultcheck_invariant pW (initState pW) Reachable.init
